import Mathlib

/-!
Shallow embedding of the identity-vault trust core:
the `CredentialStatusRegistry` and `DIDRegistry` Solidity contracts
(`packages/contracts/contracts/CredentialStatusRegistry.sol`) and the
TypeScript verification engine (`packages/api/src/index.ts`,
`packages/did-core/src/index.ts`).

Modelling conventions:
- Ethereum addresses are `Nat` (the zero address is `0`, which is the
  default value a Solidity mapping returns for an absent key).
- `block.timestamp` is an explicit `now : Nat` argument.
- Solidity mappings are Lean functions with the zero-initialised struct
  as default; `require(cond, msg)` is an early `Except.error msg` return,
  so a failed call leaves the state unchanged (Solidity revert semantics).
- The struct field `exists` is a Lean keyword and is rendered `existsF`.
-/

/-- Credential status enum of the contract (`Active` is the zero value). -/
inductive Status where
  | Active
  | Revoked
  | Suspended
  | Expired
deriving DecidableEq, Repr

/-- Per-credential record stored in the `credentialStatuses` mapping. -/
structure CredentialStatus where
  credentialId : String
  issuer : Nat
  status : Status
  issuedAt : Nat
  updatedAt : Nat
  expiresAt : Nat
  reason : String
  existsF : Bool
deriving DecidableEq, Repr

/-- One entry of the append-only `statusHistory` log. -/
structure StatusUpdate where
  status : Status
  timestamp : Nat
  updatedBy : Nat
  reason : String
deriving DecidableEq, Repr

/-- Zero-initialised `CredentialStatus`, what a Solidity mapping returns for
an absent key: all numeric fields 0, strings empty, status `Active` (enum 0),
`existsF = false`. -/
def emptyCredentialStatus : CredentialStatus :=
  { credentialId := "", issuer := 0, status := Status.Active, issuedAt := 0,
    updatedAt := 0, expiresAt := 0, reason := "", existsF := false }

/-- Storage of the `CredentialStatusRegistry` contract. -/
structure CSRegistry where
  credentialStatuses : String → CredentialStatus
  issuerCredentials : Nat → List String
  statusHistory : String → List StatusUpdate

/-- Freshly deployed registry: every mapping at its default value. -/
def csInit : CSRegistry :=
  { credentialStatuses := fun _ => emptyCredentialStatus,
    issuerCredentials := fun _ => [],
    statusHistory := fun _ => [] }

/-- Embeds `issueCredential`: requires the id to be fresh, then non-empty,
then writes the record, indexes it under the issuer and appends the
"Credential issued" history entry. -/
def issueCredential (r : CSRegistry) (sender now : Nat) (credentialId : String)
    (expiresAt : Nat) : Except String CSRegistry :=
  if (r.credentialStatuses credentialId).existsF = true then
    .error "Credential already exists"
  else if credentialId.length = 0 then
    .error "Credential ID cannot be empty"
  else
    .ok { r with
      credentialStatuses := fun i =>
        if i = credentialId then
          { credentialId := credentialId, issuer := sender,
            status := Status.Active, issuedAt := now, updatedAt := now,
            expiresAt := expiresAt, reason := "", existsF := true }
        else r.credentialStatuses i,
      issuerCredentials := fun a =>
        if a = sender then r.issuerCredentials sender ++ [credentialId]
        else r.issuerCredentials a,
      statusHistory := fun i =>
        if i = credentialId then
          r.statusHistory credentialId ++
            [{ status := Status.Active, timestamp := now, updatedBy := sender,
               reason := "Credential issued" }]
        else r.statusHistory i }

/-- Embeds `updateStatus`. Guard order follows the contract: the
`onlyIssuer` modifier runs first (comparing against the stored issuer, which
is the zero address for an absent id), then the existence check, then the
no-op check, then the expiry check. -/
def updateStatus (r : CSRegistry) (sender now : Nat) (credentialId : String)
    (newStatus : Status) (reason : String) : Except String CSRegistry :=
  if (r.credentialStatuses credentialId).issuer ≠ sender then
    .error "Only issuer can update credential status"
  else if (r.credentialStatuses credentialId).existsF = false then
    .error "Credential does not exist"
  else if (r.credentialStatuses credentialId).status = newStatus then
    .error "Status unchanged"
  else if (r.credentialStatuses credentialId).expiresAt > 0 ∧
      now > (r.credentialStatuses credentialId).expiresAt then
    .error "Credential has expired"
  else
    .ok { r with
      credentialStatuses := fun i =>
        if i = credentialId then
          { r.credentialStatuses credentialId with
            status := newStatus, updatedAt := now, reason := reason }
        else r.credentialStatuses i,
      statusHistory := fun i =>
        if i = credentialId then
          r.statusHistory credentialId ++
            [{ status := newStatus, timestamp := now, updatedBy := sender,
               reason := reason }]
        else r.statusHistory i }

/-- Embeds `revokeCredential`: its own `onlyIssuer` modifier, then
`updateStatus(id, Revoked, reason)`. -/
def revokeCredential (r : CSRegistry) (sender now : Nat) (credentialId : String)
    (reason : String) : Except String CSRegistry :=
  if (r.credentialStatuses credentialId).issuer ≠ sender then
    .error "Only issuer can update credential status"
  else updateStatus r sender now credentialId Status.Revoked reason

/-- Embeds `suspendCredential`: its own `onlyIssuer` modifier, then
`updateStatus(id, Suspended, reason)`. -/
def suspendCredential (r : CSRegistry) (sender now : Nat) (credentialId : String)
    (reason : String) : Except String CSRegistry :=
  if (r.credentialStatuses credentialId).issuer ≠ sender then
    .error "Only issuer can update credential status"
  else updateStatus r sender now credentialId Status.Suspended reason

/-- Embeds `reactivateCredential`: `onlyIssuer`, then requires the stored
status to be exactly `Suspended`, then `updateStatus(id, Active, ...)`. -/
def reactivateCredential (r : CSRegistry) (sender now : Nat)
    (credentialId : String) : Except String CSRegistry :=
  if (r.credentialStatuses credentialId).issuer ≠ sender then
    .error "Only issuer can update credential status"
  else if (r.credentialStatuses credentialId).status ≠ Status.Suspended then
    .error "Credential is not suspended"
  else updateStatus r sender now credentialId Status.Active "Credential reactivated"

/-- Embeds the view function `checkStatus`: requires existence, then returns
(status, isValid, expiresAt) where isValid starts as `status == Active` and
is refined by the expiry comparison when `expiresAt > 0`. Being a `view`
function it takes the state by value and returns no new state. -/
def checkStatus (r : CSRegistry) (now : Nat) (credentialId : String) :
    Except String (Status × Bool × Nat) :=
  if (r.credentialStatuses credentialId).existsF = false then
    .error "Credential does not exist"
  else
    let credStatus := r.credentialStatuses credentialId
    let isValid0 : Bool := decide (credStatus.status = Status.Active)
    let isValid : Bool :=
      if isValid0 = true ∧ credStatus.expiresAt > 0 then
        decide (now ≤ credStatus.expiresAt)
      else isValid0
    .ok (credStatus.status, isValid, credStatus.expiresAt)

/-- Embeds `getStatusHistory`: no existence check, empty list for unknown ids. -/
def getStatusHistory (r : CSRegistry) (credentialId : String) : List StatusUpdate :=
  r.statusHistory credentialId

/-- Embeds `getCredentialsByIssuer`. -/
def getCredentialsByIssuer (r : CSRegistry) (issuer : Nat) : List String :=
  r.issuerCredentials issuer

/-- One loop iteration of `batchCheckStatus`: the (status, validity) pair the
contract stores at position i for a given id; an unknown id yields
`(Revoked, false)`. -/
def batchEntry (r : CSRegistry) (now : Nat) (credentialId : String) :
    Status × Bool :=
  if (r.credentialStatuses credentialId).existsF = true then
    let credStatus := r.credentialStatuses credentialId
    let v0 : Bool := decide (credStatus.status = Status.Active)
    (credStatus.status,
      if v0 = true ∧ credStatus.expiresAt > 0 then
        decide (now ≤ credStatus.expiresAt)
      else v0)
  else (Status.Revoked, false)

/-- Embeds the view function `batchCheckStatus`: two parallel arrays built
index by index from the input. It has no `require` at all and never fails. -/
def batchCheckStatus (r : CSRegistry) (now : Nat) (credentialIds : List String) :
    List Status × List Bool :=
  ((credentialIds.map (batchEntry r now)).map Prod.fst,
   (credentialIds.map (batchEntry r now)).map Prod.snd)

/-- State-changing calls of the credential registry, with caller and
timestamp, for building reachable states as traces. -/
inductive CSOp where
  | issue (sender now : Nat) (credentialId : String) (expiresAt : Nat)
  | update (sender now : Nat) (credentialId : String) (newStatus : Status) (reason : String)
  | revoke (sender now : Nat) (credentialId : String) (reason : String)
  | suspend (sender now : Nat) (credentialId : String) (reason : String)
  | reactivate (sender now : Nat) (credentialId : String)

/-- Dispatches one call to the corresponding contract function. -/
def csStep (r : CSRegistry) : CSOp → Except String CSRegistry
  | .issue sender now id expiresAt => issueCredential r sender now id expiresAt
  | .update sender now id ns reason => updateStatus r sender now id ns reason
  | .revoke sender now id reason => revokeCredential r sender now id reason
  | .suspend sender now id reason => suspendCredential r sender now id reason
  | .reactivate sender now id => reactivateCredential r sender now id

/-- Applies one call with revert semantics: a failed call leaves the state
exactly as it was. -/
def csApply (r : CSRegistry) (op : CSOp) : CSRegistry :=
  match csStep r op with
  | .ok r' => r'
  | .error _ => r

/-- Registry state after a trace of calls against a fresh deployment; every
reachable state is `csExec ops` for some trace `ops`. -/
def csExec (ops : List CSOp) : CSRegistry :=
  ops.foldl csApply csInit

/-- Projects the error message of a failed call (for concrete evaluation;
state equality itself is not decidable because states contain functions). -/
def errMsg {α : Type} : Except String α → Option String
  | .error e => some e
  | .ok _ => none

/-- Boolean success test of a call result. -/
def callOk {α : Type} : Except String α → Bool
  | .ok _ => true
  | .error _ => false

/-- DID document record of the `DIDRegistry` contract (the `controller`
string list inside the document is distinct from the `didControllers`
address mapping; `createDID` initialises it empty). -/
structure DIDDocument where
  id : String
  context : List String
  controller : List String
  publicKey : List String
  service : List String
  created : Nat
  updated : Nat
  existsF : Bool
deriving DecidableEq, Repr

/-- Zero-initialised `DIDDocument` returned by the mapping for absent keys. -/
def emptyDIDDocument : DIDDocument :=
  { id := "", context := [], controller := [], publicKey := [], service := [],
    created := 0, updated := 0, existsF := false }

/-- Storage of the `DIDRegistry` contract. -/
structure DIDRegistryState where
  didDocuments : String → DIDDocument
  didControllers : String → List Nat
  controllerDIDs : Nat → List String

/-- Freshly deployed DID registry. -/
def didInit : DIDRegistryState :=
  { didDocuments := fun _ => emptyDIDDocument,
    didControllers := fun _ => [],
    controllerDIDs := fun _ => [] }

/-- Embeds `isController`: linear scan of the `didControllers` array. -/
def isController (r : DIDRegistryState) (did : String) (controller : Nat) : Bool :=
  (r.didControllers did).contains controller

/-- Embeds `didExists`. -/
def didExists (r : DIDRegistryState) (did : String) : Bool :=
  (r.didDocuments did).existsF

/-- Embeds `createDID`: requires the `exists` flag of the stored document to
be clear, then a non-empty id; writes a fresh document (empty document
controller list) and pushes the caller onto the `didControllers` array and
the id onto the caller's reverse index. -/
def createDID (r : DIDRegistryState) (sender now : Nat) (did : String)
    (context publicKeys services : List String) : Except String DIDRegistryState :=
  if (r.didDocuments did).existsF = true then
    .error "DID already exists"
  else if did.length = 0 then
    .error "DID cannot be empty"
  else
    .ok { r with
      didDocuments := fun d =>
        if d = did then
          { id := did, context := context, controller := [],
            publicKey := publicKeys, service := services, created := now,
            updated := now, existsF := true }
        else r.didDocuments d,
      didControllers := fun d =>
        if d = did then r.didControllers did ++ [sender]
        else r.didControllers d,
      controllerDIDs := fun a =>
        if a = sender then r.controllerDIDs sender ++ [did]
        else r.controllerDIDs a }

/-- Embeds `updateDID`: `onlyController` modifier, then existence check,
then replaces context/publicKey/service and bumps `updated`. -/
def updateDID (r : DIDRegistryState) (sender now : Nat) (did : String)
    (context publicKeys services : List String) : Except String DIDRegistryState :=
  if isController r did sender = false then
    .error "Not a controller of this DID"
  else if (r.didDocuments did).existsF = false then
    .error "DID does not exist"
  else
    .ok { r with
      didDocuments := fun d =>
        if d = did then
          { r.didDocuments did with
            context := context, publicKey := publicKeys, service := services,
            updated := now }
        else r.didDocuments d }

/-- Embeds `addController`: `onlyController` modifier, duplicate check,
zero-address check, then pushes onto both indexes. -/
def addController (r : DIDRegistryState) (sender : Nat) (did : String)
    (controller : Nat) : Except String DIDRegistryState :=
  if isController r did sender = false then
    .error "Not a controller of this DID"
  else if isController r did controller = true then
    .error "Already a controller"
  else if controller = 0 then
    .error "Invalid controller address"
  else
    .ok { r with
      didControllers := fun d =>
        if d = did then r.didControllers did ++ [controller]
        else r.didControllers d,
      controllerDIDs := fun a =>
        if a = controller then r.controllerDIDs controller ++ [did]
        else r.controllerDIDs a }

/-- Solidity swap-and-pop removal of the first element satisfying `p`:
overwrite that slot with the last element, then drop the last slot. When no
element matches, the loop falls through and the array is unchanged. -/
def swapRemoveFirst {α : Type} [Inhabited α] (xs : List α) (p : α → Bool) :
    List α :=
  match xs.findIdx? p with
  | none => xs
  | some i => (xs.set i (xs.getLastD default)).dropLast

/-- Embeds `removeController`: `onlyController` modifier, membership check
on the removed address, last-controller check, then swap-and-pop removal
from the controller array and from the reverse index. -/
def removeController (r : DIDRegistryState) (sender : Nat) (did : String)
    (controller : Nat) : Except String DIDRegistryState :=
  if isController r did sender = false then
    .error "Not a controller of this DID"
  else if isController r did controller = false then
    .error "Not a controller"
  else if (r.didControllers did).length ≤ 1 then
    .error "Cannot remove last controller"
  else
    .ok { r with
      didControllers := fun d =>
        if d = did then
          swapRemoveFirst (r.didControllers did) (fun a => a = controller)
        else r.didControllers d,
      controllerDIDs := fun a =>
        if a = controller then
          swapRemoveFirst (r.controllerDIDs controller) (fun s => s = did)
        else r.controllerDIDs a }

/-- Embeds `deactivateDID` (soft delete): `onlyController`, existence check,
then clears the same `exists` flag `createDID` tests and bumps `updated`. -/
def deactivateDID (r : DIDRegistryState) (sender now : Nat) (did : String) :
    Except String DIDRegistryState :=
  if isController r did sender = false then
    .error "Not a controller of this DID"
  else if (r.didDocuments did).existsF = false then
    .error "DID does not exist"
  else
    .ok { r with
      didDocuments := fun d =>
        if d = did then
          { r.didDocuments did with updated := now, existsF := false }
        else r.didDocuments d }

/-- Embeds the view function `resolveDID`: fails for an unknown or
deactivated id (both have a clear `exists` flag). -/
def resolveDID (r : DIDRegistryState) (did : String) : Except String DIDDocument :=
  if (r.didDocuments did).existsF = false then
    .error "DID does not exist"
  else .ok (r.didDocuments did)

/-- Embeds `getControllers`. -/
def getControllers (r : DIDRegistryState) (did : String) : List Nat :=
  r.didControllers did

/-- State-changing calls of the DID registry, for building reachable states
as traces. -/
inductive DIDOp where
  | create (sender now : Nat) (did : String) (context publicKeys services : List String)
  | update (sender now : Nat) (did : String) (context publicKeys services : List String)
  | addCtrl (sender : Nat) (did : String) (controller : Nat)
  | removeCtrl (sender : Nat) (did : String) (controller : Nat)
  | deactivate (sender now : Nat) (did : String)

/-- Dispatches one call to the corresponding contract function. -/
def didStep (r : DIDRegistryState) : DIDOp → Except String DIDRegistryState
  | .create sender now did ctx pks svcs => createDID r sender now did ctx pks svcs
  | .update sender now did ctx pks svcs => updateDID r sender now did ctx pks svcs
  | .addCtrl sender did c => addController r sender did c
  | .removeCtrl sender did c => removeController r sender did c
  | .deactivate sender now did => deactivateDID r sender now did

/-- Applies one call with revert semantics. -/
def didApply (r : DIDRegistryState) (op : DIDOp) : DIDRegistryState :=
  match didStep r op with
  | .ok r' => r'
  | .error _ => r

/-- DID registry state after a trace of calls against a fresh deployment;
every reachable state is `didExec ops` for some trace `ops`. -/
def didExec (ops : List DIDOp) : DIDRegistryState :=
  ops.foldl didApply didInit

namespace DIDCore

/-- Issuer object form of the `issuer` field (`{ id, name? }`). -/
structure Issuer where
  id : String
  name : Option String
deriving DecidableEq, Repr

/-- Credential proof structure (`jws`/`proofValue` optional). -/
structure Proof where
  type : String
  created : String
  proofPurpose : String
  verificationMethod : String
  jws : Option String
  proofValue : Option String
deriving DecidableEq, Repr

/-- The `credentialStatus` field (`{ id, type }`). -/
structure CredentialStatusRef where
  id : String
  type : String
deriving DecidableEq, Repr

/-- W3C Verifiable Credential as the engine consumes it. Fields the engine
tests for JavaScript truthiness are `Option`s (an absent field is `none`);
date strings are modelled as `Nat` timestamps, so `expirationDate` is
`Option Nat` and the JS comparison `new Date(expirationDate) < new Date()`
becomes `e < now`. `credentialSubject` is an opaque attribute map the
engine never inspects. -/
structure VerifiableCredential where
  context : Option (List String)
  id : String
  type : Option (List String)
  issuer : Option (String ⊕ Issuer)
  issuanceDate : String
  expirationDate : Option Nat
  credentialSubject : List (String × String)
  proof : Option Proof
  credentialStatus : Option CredentialStatusRef
deriving DecidableEq, Repr

/-- Embeds the static `DIDCore.verifyCredential` of
`packages/did-core/src/index.ts`: false without a proof; once a proof is
present it returns true whenever a `jws` is present ("simplified version",
per the source comment), ignoring the public-key argument entirely
(the source names it `_issuerPublicKey` and never reads it). -/
def verifyCredential (credential : VerifiableCredential)
    (_issuerPublicKey : String) : Bool :=
  match credential.proof with
  | none => false
  | some proof =>
    match proof.jws with
    | some _ => true
    | none => false

end DIDCore

namespace IdentityAPI

/-- Shape of the document object `IdentityAPI.resolveDID` assembles from the
on-chain `DIDDocument` (timestamps stringified in the source; kept as `Nat`
here, which the engine never inspects). -/
structure APIDIDDocument where
  id : String
  context : List String
  controller : List String
  publicKey : List String
  service : List String
  created : Nat
  updated : Nat
deriving DecidableEq, Repr

/-- Result of `IdentityAPI.resolveDID` (`document` is `null` when
`existsFlag` is false; the TS field is named `exists`, a Lean keyword). -/
structure DIDResolutionResult where
  did : String
  document : Option APIDIDDocument
  existsFlag : Bool
deriving DecidableEq, Repr

/-- Verification result of the engine: optional fields are omitted
(`undefined`) when `none`; in particular empty error and warning lists are
reported as `none`, never as `some []`. -/
structure VerificationResult where
  valid : Bool
  credentialId : Option String := none
  issuer : Option String := none
  holder : Option String := none
  errors : Option (List String) := none
  warnings : Option (List String) := none
deriving DecidableEq, Repr

/-- Environment of one engine call: the current wall-clock time and the
outcome each underlying contract call would have, where `Except.error`
models a thrown/rejected call (revert or transport failure alike). -/
structure Env where
  now : Nat
  didExistsCall : String → Except String Bool
  resolveDIDCall : String → Except String APIDIDDocument
  checkStatusCall : String → Except String (Status × Bool × Nat)

/-- Embeds `IdentityAPI.resolveDID`: the whole body sits in a `try`, and the
`catch` returns `{ did, document: null, exists: false }`, so a throw from
either underlying call is swallowed into a plain not-found result. -/
def resolveDID (env : Env) (did : String) : DIDResolutionResult :=
  match env.didExistsCall did with
  | .error _ => { did := did, document := none, existsFlag := false }
  | .ok false => { did := did, document := none, existsFlag := false }
  | .ok true =>
    match env.resolveDIDCall did with
    | .error _ => { did := did, document := none, existsFlag := false }
    | .ok document => { did := did, document := some document, existsFlag := true }

/-- JavaScript truthiness of the `issuer` field: absent or the empty string
is falsy, an issuer object is truthy. -/
def issuerTruthy : Option (String ⊕ DIDCore.Issuer) → Bool
  | none => false
  | some (.inl s) => decide (s ≠ "")
  | some (.inr _) => true

/-- The structural guard of `verifyCredential`:
`!credential['@context'] || !credential.type || !credential.issuer`
(a present array is always truthy in JS, so only absence matters for
context and type). -/
def structuralMissing (c : DIDCore.VerifiableCredential) : Bool :=
  !c.context.isSome || !c.type.isSome || !(issuerTruthy c.issuer)

/-- Issuer DID extraction: the string itself, or `.id` of the object form. -/
def issuerId (c : DIDCore.VerifiableCredential) : String :=
  match c.issuer with
  | some (.inl s) => s
  | some (.inr o) => o.id
  | none => ""

/-- Expiration guard of `verifyCredential`:
`credential.expirationDate && new Date(credential.expirationDate) < new Date()`. -/
def expirationPast (c : DIDCore.VerifiableCredential) (now : Nat) : Bool :=
  match c.expirationDate with
  | some e => decide (e < now)
  | none => false

/-- Tail of the `verifyCredential` pipeline after the status step: the proof
step only ever appends warnings (`statusWarnings` carries the warning the
status step may have produced), and the final verdict is computed from the
error list, which is empty on this path. The public-key argument passed to
`DIDCore.verifyCredential` in the source is
`document.publicKey[0]?.publicKeyJwk || ''`; registry documents carry plain
string keys without a `publicKeyJwk` member, so the fallback empty string is
what is passed (and the callee ignores it). -/
def proofStepAndVerdict (c : DIDCore.VerifiableCredential) (issuerDID : String)
    (statusWarnings : List String) : VerificationResult :=
  let errors : List String := []
  let warnings : List String :=
    match c.proof with
    | some _ =>
      if DIDCore.verifyCredential c "" = true then statusWarnings
      else statusWarnings ++ ["Could not verify credential proof"]
    | none => statusWarnings ++ ["Credential has no proof"]
  { valid := errors.isEmpty,
    credentialId := some c.id,
    issuer := some issuerDID,
    holder := none,
    errors := if errors.isEmpty then none else some errors,
    warnings := if warnings.isEmpty then none else some warnings }

/-- Embeds `IdentityAPI.verifyCredential`: structural check, expiration
check, issuer DID resolution, status check (a definitive `isValid = false`
is an error and stops; a thrown status call downgrades to a warning and
continues), then the proof step and verdict. Early error returns carry only
`valid` and the error list, exactly as the source's `return { valid: false,
errors }`. -/
def verifyCredential (env : Env) (c : DIDCore.VerifiableCredential) :
    VerificationResult :=
  if structuralMissing c = true then
    { valid := false, errors := some ["Invalid credential structure"] }
  else if expirationPast c env.now = true then
    { valid := false, errors := some ["Credential has expired"] }
  else
    let issuerDID := issuerId c
    let didResolution := resolveDID env issuerDID
    if didResolution.existsFlag = false then
      { valid := false, errors := some ["Issuer DID not found"] }
    else
      match c.credentialStatus with
      | some cs =>
        match env.checkStatusCall cs.id with
        | .ok (_, isValid, _) =>
          if isValid = false then
            { valid := false,
              errors := some ["Credential has been revoked or is invalid"] }
          else proofStepAndVerdict c issuerDID []
        | .error _ =>
          proofStepAndVerdict c issuerDID
            ["Could not verify credential status on blockchain"]
      | none => proofStepAndVerdict c issuerDID []

end IdentityAPI

/-! Helper lemmas shared by several claims. -/

/-- Inversion of a successful `updateStatus` call: all four guards passed
and the stored record for the id carries the new status, timestamp and
reason (all other fields unchanged). -/
theorem updateStatus_ok {r : CSRegistry} {sender now : Nat}
    {credentialId : String} {newStatus : Status} {reason : String}
    {r' : CSRegistry}
    (h : updateStatus r sender now credentialId newStatus reason = .ok r') :
    (r.credentialStatuses credentialId).issuer = sender ∧
    (r.credentialStatuses credentialId).existsF = true ∧
    (r.credentialStatuses credentialId).status ≠ newStatus ∧
    ¬((r.credentialStatuses credentialId).expiresAt > 0 ∧
        now > (r.credentialStatuses credentialId).expiresAt) ∧
    ∀ i, r'.credentialStatuses i =
      if i = credentialId then
        { r.credentialStatuses credentialId with
          status := newStatus, updatedAt := now, reason := reason }
      else r.credentialStatuses i := by
  unfold updateStatus at h
  split at h
  · cases h
  · split at h
    · cases h
    · split at h
      · cases h
      · split at h
        · cases h
        · rename_i h1 h2 h3 h4
          injection h with h
          exact ⟨by omega, by simpa using h2, h3, h4, fun i => by rw [← h]⟩

deriving instance DecidableEq for Except

/-- C2: for every existing credential id, `checkStatus` returns
(status, isValid, expiresAt) read from the stored record with
`isValid = (status == Active) && (expiresAt == 0 || now <= expiresAt)`.
The returned status is exactly the stored status (in particular it stays
`Active` past expiry — only the validity bit reflects expiration), and
`checkStatus` is a view: it returns no new state, so nothing is ever
written back. -/
theorem C2_checkStatus_lazy_validity (r : CSRegistry) (now : Nat)
    (credentialId : String)
    (h : (r.credentialStatuses credentialId).existsF = true) :
    checkStatus r now credentialId =
      .ok ((r.credentialStatuses credentialId).status,
        (decide ((r.credentialStatuses credentialId).status = Status.Active) &&
          (decide ((r.credentialStatuses credentialId).expiresAt = 0) ||
           decide (now ≤ (r.credentialStatuses credentialId).expiresAt))),
        (r.credentialStatuses credentialId).expiresAt) := by
  unfold checkStatus
  rw [if_neg (by simp [h])]
  refine congrArg Except.ok ?_
  refine congrArg (Prod.mk _) ?_
  refine congrArg (fun b => (b, _)) ?_
  by_cases hA : (r.credentialStatuses credentialId).status = Status.Active
  · rcases Nat.eq_zero_or_pos (r.credentialStatuses credentialId).expiresAt with h0 | h0
    · simp [hA, h0]
    · simp [hA, h0, Nat.pos_iff_ne_zero.mp h0]
  · simp [hA]

/-- Witness for C2 at a concrete registry: a credential issued with
`expiresAt = 0` is reported Active and valid at a much later time. -/
theorem C2_checkStatus_lazy_validity_witness :
    checkStatus (csExec [CSOp.issue 1 0 "c" 0]) 999999 "c" =
      .ok (Status.Active, true, 0) :=
  (C2_checkStatus_lazy_validity (csExec [CSOp.issue 1 0 "c" 0]) 999999 "c"
    (by decide)).trans (by decide)

/-- C6: on an existing credential with a positive `expiresAt` strictly in
the past, any issuer-called `updateStatus` to a different status fails with
the `StateError` revert "Credential has expired", and (revert semantics)
the whole registry state — record and history included — is unchanged. -/
theorem C6_expired_frozen (r : CSRegistry) (sender now : Nat)
    (credentialId : String) (newStatus : Status) (reason : String)
    (hex : (r.credentialStatuses credentialId).existsF = true)
    (hiss : (r.credentialStatuses credentialId).issuer = sender)
    (hpos : (r.credentialStatuses credentialId).expiresAt > 0)
    (hpast : now > (r.credentialStatuses credentialId).expiresAt)
    (hne : (r.credentialStatuses credentialId).status ≠ newStatus) :
    updateStatus r sender now credentialId newStatus reason =
      .error "Credential has expired" ∧
    csApply r (CSOp.update sender now credentialId newStatus reason) = r := by
  have herr : updateStatus r sender now credentialId newStatus reason =
      .error "Credential has expired" := by
    unfold updateStatus
    rw [if_neg (by omega), if_neg (by simp [hex]), if_neg hne,
      if_pos ⟨hpos, hpast⟩]
  exact ⟨herr, by simp only [csApply, csStep]; rw [herr]⟩

/-- Witness for C6: a credential issued at time 0 expiring at time 5 can no
longer be revoked by its issuer at time 9. -/
theorem C6_expired_frozen_witness :
    updateStatus (csExec [CSOp.issue 1 0 "c" 5]) 1 9 "c" Status.Revoked "x" =
      .error "Credential has expired" ∧
    csApply (csExec [CSOp.issue 1 0 "c" 5])
        (CSOp.update 1 9 "c" Status.Revoked "x") =
      csExec [CSOp.issue 1 0 "c" 5] :=
  C6_expired_frozen (csExec [CSOp.issue 1 0 "c" 5]) 1 9 "c" Status.Revoked "x"
    (by decide) (by decide) (by decide) (by decide) (by decide)

/-- Indexing a mapped list: `getD` at an in-range index commutes with `map`
(the default on the source side is irrelevant in range). -/
theorem map_getD {α β : Type} (l : List α) (f : α → β) (i : Nat) (da : α)
    (db : β) (h : i < l.length) : (l.map f).getD i db = f (l.getD i da) := by
  induction l generalizing i with
  | nil => simp at h
  | cons x xs ih =>
    cases i with
    | zero => simp
    | succ n =>
      simp only [List.map_cons, List.getD_cons_succ]
      exact ih n (by simpa using Nat.lt_of_succ_lt_succ h)

/-- C7: `batchCheckStatus` never fails (it is a total function with no
require), returns two arrays of the input's length in input order, and at
every position carries exactly the (status, isValid) pair `checkStatus`
computes for an existing id, and the fail-closed `(Revoked, false)` pair
for an unknown id. -/
theorem C7_batchCheckStatus_pointwise (r : CSRegistry) (now : Nat)
    (credentialIds : List String) :
    ((batchCheckStatus r now credentialIds).1.length = credentialIds.length ∧
     (batchCheckStatus r now credentialIds).2.length = credentialIds.length) ∧
    ∀ i, i < credentialIds.length →
      ((r.credentialStatuses (credentialIds.getD i "")).existsF = true →
        checkStatus r now (credentialIds.getD i "") =
          .ok ((batchCheckStatus r now credentialIds).1.getD i Status.Active,
               (batchCheckStatus r now credentialIds).2.getD i false,
               (r.credentialStatuses (credentialIds.getD i "")).expiresAt)) ∧
      ((r.credentialStatuses (credentialIds.getD i "")).existsF = false →
        (batchCheckStatus r now credentialIds).1.getD i Status.Active =
            Status.Revoked ∧
        (batchCheckStatus r now credentialIds).2.getD i false = false) := by
  constructor
  · constructor <;> simp [batchCheckStatus]
  · intro i hi
    have hlen : i < (credentialIds.map (batchEntry r now)).length := by
      simpa using hi
    have hget1 : (batchCheckStatus r now credentialIds).1.getD i Status.Active
        = (batchEntry r now (credentialIds.getD i "")).1 := by
      show ((credentialIds.map (batchEntry r now)).map Prod.fst).getD i
          Status.Active = _
      rw [map_getD _ Prod.fst i (Status.Active, false) _ hlen,
        map_getD _ (batchEntry r now) i "" _ hi]
    have hget2 : (batchCheckStatus r now credentialIds).2.getD i false
        = (batchEntry r now (credentialIds.getD i "")).2 := by
      show ((credentialIds.map (batchEntry r now)).map Prod.snd).getD i
          false = _
      rw [map_getD _ Prod.snd i (Status.Active, false) _ hlen,
        map_getD _ (batchEntry r now) i "" _ hi]
    rw [hget1, hget2]
    constructor
    · intro hex
      unfold checkStatus batchEntry
      rw [if_neg (by simp only [hex]; decide), if_pos hex]
    · intro hmiss
      unfold batchEntry
      rw [if_neg (by simp only [hmiss]; decide)]
      exact ⟨rfl, rfl⟩

/-- Witness for C7 at a concrete registry and batch: position 0 holds an
issued Active credential, position 1 an unknown id reported
`(Revoked, false)`. -/
theorem C7_batchCheckStatus_pointwise_witness :
    checkStatus (csExec [CSOp.issue 1 0 "c" 0]) 5 (["c", "ghost"].getD 0 "") =
      .ok ((batchCheckStatus (csExec [CSOp.issue 1 0 "c" 0]) 5
              ["c", "ghost"]).1.getD 0 Status.Active,
           (batchCheckStatus (csExec [CSOp.issue 1 0 "c" 0]) 5
              ["c", "ghost"]).2.getD 0 false,
           (((csExec [CSOp.issue 1 0 "c" 0]).credentialStatuses
              (["c", "ghost"].getD 0 ""))).expiresAt) ∧
    (batchCheckStatus (csExec [CSOp.issue 1 0 "c" 0]) 5
        ["c", "ghost"]).1.getD 1 Status.Active = Status.Revoked ∧
    (batchCheckStatus (csExec [CSOp.issue 1 0 "c" 0]) 5
        ["c", "ghost"]).2.getD 1 false = false :=
  ⟨((C7_batchCheckStatus_pointwise (csExec [CSOp.issue 1 0 "c" 0]) 5
      ["c", "ghost"]).2 0 (by decide)).1 (by decide),
   ((C7_batchCheckStatus_pointwise (csExec [CSOp.issue 1 0 "c" 0]) 5
      ["c", "ghost"]).2 1 (by decide)).2 (by decide)⟩

/-- C1 counterexample: the stated state machine is violated on a reachable
state. After issue and revoke by issuer 1, the credential is stored
`Revoked`, yet the issuer's `updateStatus` back to `Active` succeeds (pair
(Revoked, Active), outside the claimed relation, so `Revoked` is not
terminal), and from the same revoked state `updateStatus` to `Expired`
also succeeds, so `Expired` can be stored by a transition. -/
theorem C1_revoked_not_terminal_counterexample :
    ((csExec [CSOp.issue 1 0 "c" 0, CSOp.revoke 1 1 "c" "leak"]).credentialStatuses
        "c").status = Status.Revoked ∧
    callOk (updateStatus (csExec [CSOp.issue 1 0 "c" 0, CSOp.revoke 1 1 "c" "leak"])
        1 2 "c" Status.Active "undo") = true ∧
    ((csExec [CSOp.issue 1 0 "c" 0, CSOp.revoke 1 1 "c" "leak",
        CSOp.update 1 2 "c" Status.Active "undo"]).credentialStatuses
        "c").status = Status.Active ∧
    callOk (updateStatus (csExec [CSOp.issue 1 0 "c" 0, CSOp.revoke 1 1 "c" "leak"])
        1 2 "c" Status.Expired "oops") = true := by
  decide

/-- C1 amended: the only transition constraints the registry enforces are
(a) `updateStatus` requires the new status to differ from the stored one
(so any pair of distinct statuses is allowed, including transitions out of
`Revoked` and into `Expired`), and stores exactly the requested status on
success; and (b) `reactivateCredential` alone restricts its source state:
it succeeds only from stored status `Suspended` and stores `Active`. -/
theorem C1_transition_guards_amended :
    (∀ (r : CSRegistry) (sender now : Nat) (credentialId : String)
        (newStatus : Status) (reason : String) (r' : CSRegistry),
      updateStatus r sender now credentialId newStatus reason = .ok r' →
        (r.credentialStatuses credentialId).status ≠ newStatus ∧
        (r'.credentialStatuses credentialId).status = newStatus) ∧
    (∀ (r : CSRegistry) (sender now : Nat) (credentialId : String)
        (r' : CSRegistry),
      reactivateCredential r sender now credentialId = .ok r' →
        (r.credentialStatuses credentialId).status = Status.Suspended ∧
        (r'.credentialStatuses credentialId).status = Status.Active) := by
  constructor
  · intro r sender now credentialId newStatus reason r' h
    obtain ⟨-, -, hne, -, hrec⟩ := updateStatus_ok h
    exact ⟨hne, by rw [hrec credentialId]; simp⟩
  · intro r sender now credentialId r' h
    unfold reactivateCredential at h
    split at h
    · cases h
    · split at h
      · cases h
      · rename_i h1 h2
        obtain ⟨-, -, -, -, hrec⟩ := updateStatus_ok h
        exact ⟨by simpa using h2, by rw [hrec credentialId]; simp⟩

/-- Witness for C1 amended: a successful suspension changes Active to
Suspended, and a successful reactivation starts from Suspended and stores
Active. -/
theorem C1_transition_guards_witness :
    (((csExec [CSOp.issue 1 0 "c" 0]).credentialStatuses "c").status ≠
        Status.Suspended ∧
     ((csExec [CSOp.issue 1 0 "c" 0, CSOp.update 1 1 "c" Status.Suspended
        "probe"]).credentialStatuses "c").status = Status.Suspended) ∧
    (((csExec [CSOp.issue 1 0 "c" 0, CSOp.suspend 1 1 "c" "probe"]).credentialStatuses
        "c").status = Status.Suspended ∧
     ((csExec [CSOp.issue 1 0 "c" 0, CSOp.suspend 1 1 "c" "probe",
        CSOp.reactivate 1 2 "c"]).credentialStatuses "c").status =
        Status.Active) :=
  ⟨C1_transition_guards_amended.1 (csExec [CSOp.issue 1 0 "c" 0]) 1 1 "c"
      Status.Suspended "probe" _ rfl,
   C1_transition_guards_amended.2
      (csExec [CSOp.issue 1 0 "c" 0, CSOp.suspend 1 1 "c" "probe"]) 1 2 "c"
      _ rfl⟩

/-- No ghost records: a credential record whose exists flag is clear is the
zero-initialised mapping default (in particular its issuer is the zero
address). -/
def csNoGhost (r : CSRegistry) : Prop :=
  ∀ credentialId, (r.credentialStatuses credentialId).existsF = false →
    r.credentialStatuses credentialId = emptyCredentialStatus

/-- Inversion of a successful `issueCredential` call. -/
theorem issueCredential_ok {r : CSRegistry} {sender now : Nat}
    {credentialId : String} {expiresAt : Nat} {r' : CSRegistry}
    (h : issueCredential r sender now credentialId expiresAt = .ok r') :
    (r.credentialStatuses credentialId).existsF = false ∧
    ∀ i, r'.credentialStatuses i =
      if i = credentialId then
        { credentialId := credentialId, issuer := sender,
          status := Status.Active, issuedAt := now, updatedAt := now,
          expiresAt := expiresAt, reason := "", existsF := true }
      else r.credentialStatuses i := by
  unfold issueCredential at h
  split at h
  · cases h
  · split at h
    · cases h
    · rename_i h1 h2
      injection h with h
      exact ⟨by simpa using h1, fun i => by rw [← h]⟩

/-- A successful `updateStatus` preserves the no-ghost property. -/
theorem csNoGhost_update {r r' : CSRegistry} {sender now : Nat}
    {credentialId : String} {newStatus : Status} {reason : String}
    (h : updateStatus r sender now credentialId newStatus reason = .ok r')
    (hg : csNoGhost r) : csNoGhost r' := by
  obtain ⟨-, hex, -, -, hrec⟩ := updateStatus_ok h
  intro i hi
  rw [hrec i] at hi ⊢
  by_cases hic : i = credentialId
  · rw [if_pos hic] at hi
    simp [hex] at hi
  · rw [if_neg hic] at hi ⊢
    exact hg i hi

/-- A successful `issueCredential` preserves the no-ghost property. -/
theorem csNoGhost_issue {r r' : CSRegistry} {sender now : Nat}
    {credentialId : String} {expiresAt : Nat}
    (h : issueCredential r sender now credentialId expiresAt = .ok r')
    (hg : csNoGhost r) : csNoGhost r' := by
  obtain ⟨-, hrec⟩ := issueCredential_ok h
  intro i hi
  rw [hrec i] at hi ⊢
  by_cases hic : i = credentialId
  · rw [if_pos hic] at hi
    simp at hi
  · rw [if_neg hic] at hi ⊢
    exact hg i hi

/-- Every call preserves the no-ghost property (failed calls leave the
state unchanged). -/
theorem csNoGhost_apply (r : CSRegistry) (op : CSOp) (h : csNoGhost r) :
    csNoGhost (csApply r op) := by
  unfold csApply
  cases op with
  | issue sender now id expiresAt =>
    simp only [csStep]
    cases hstep : issueCredential r sender now id expiresAt with
    | error e => exact h
    | ok r' => exact csNoGhost_issue hstep h
  | update sender now id ns reason =>
    simp only [csStep]
    cases hstep : updateStatus r sender now id ns reason with
    | error e => exact h
    | ok r' => exact csNoGhost_update hstep h
  | revoke sender now id reason =>
    simp only [csStep]
    cases hstep : revokeCredential r sender now id reason with
    | error e => exact h
    | ok r' =>
      have hupd : updateStatus r sender now id Status.Revoked reason = .ok r' := by
        unfold revokeCredential at hstep
        split at hstep
        · cases hstep
        · exact hstep
      exact csNoGhost_update hupd h
  | suspend sender now id reason =>
    simp only [csStep]
    cases hstep : suspendCredential r sender now id reason with
    | error e => exact h
    | ok r' =>
      have hupd : updateStatus r sender now id Status.Suspended reason = .ok r' := by
        unfold suspendCredential at hstep
        split at hstep
        · cases hstep
        · exact hstep
      exact csNoGhost_update hupd h
  | reactivate sender now id =>
    simp only [csStep]
    cases hstep : reactivateCredential r sender now id with
    | error e => exact h
    | ok r' =>
      have hupd : updateStatus r sender now id Status.Active
          "Credential reactivated" = .ok r' := by
        unfold reactivateCredential at hstep
        split at hstep
        · cases hstep
        · split at hstep
          · cases hstep
          · exact hstep
      exact csNoGhost_update hupd h

/-- Every reachable credential-registry state has no ghost records. -/
theorem csExec_noGhost (ops : List CSOp) : csNoGhost (csExec ops) := by
  unfold csExec
  suffices hgen : ∀ r : CSRegistry, csNoGhost r →
      csNoGhost (ops.foldl csApply r) from hgen csInit (fun _ _ => rfl)
  induction ops with
  | nil => intro r h; exact h
  | cons op rest ih =>
    intro r h
    exact ih (csApply r op) (csNoGhost_apply r op h)

/-- C3 counterexample: on a fresh registry the credential "ghost" is absent,
yet `updateStatus` called by address 1 reverts with the Unauthorized message
of the `onlyIssuer` modifier, not with the claimed NotFound message — the
modifier runs before the existence check and compares the caller against
the zero-address issuer of the absent record. -/
theorem C3_error_priority_counterexample :
    errMsg (updateStatus csInit 1 0 "ghost" Status.Revoked "r") =
      some "Only issuer can update credential status" ∧
    errMsg (updateStatus csInit 1 0 "ghost" Status.Revoked "r") ≠
      some "Credential does not exist" := by
  decide

/-- C3 amended: the error kinds of `updateStatus`, in the contract's guard
order. Unauthorized whenever the caller differs from the stored issuer;
NotFound only when the caller equals the stored issuer of a non-existing
record; NoOp when the issuer resubmits the current status. Consequently, in
every reachable state an absent id has the zero address as stored issuer,
so every nonzero caller on an absent id gets Unauthorized, never NotFound. -/
theorem C3_error_kinds_amended :
    (∀ (r : CSRegistry) (sender now : Nat) (credentialId : String)
        (newStatus : Status) (reason : String),
      ((r.credentialStatuses credentialId).issuer ≠ sender →
        updateStatus r sender now credentialId newStatus reason =
          .error "Only issuer can update credential status") ∧
      ((r.credentialStatuses credentialId).issuer = sender →
        (r.credentialStatuses credentialId).existsF = false →
        updateStatus r sender now credentialId newStatus reason =
          .error "Credential does not exist") ∧
      ((r.credentialStatuses credentialId).issuer = sender →
        (r.credentialStatuses credentialId).existsF = true →
        (r.credentialStatuses credentialId).status = newStatus →
        updateStatus r sender now credentialId newStatus reason =
          .error "Status unchanged")) ∧
    (∀ (ops : List CSOp) (sender now : Nat) (credentialId : String)
        (newStatus : Status) (reason : String),
      sender ≠ 0 →
      ((csExec ops).credentialStatuses credentialId).existsF = false →
      updateStatus (csExec ops) sender now credentialId newStatus reason =
        .error "Only issuer can update credential status") := by
  constructor
  · intro r sender now credentialId newStatus reason
    refine ⟨fun hne => ?_, fun hiss hmiss => ?_, fun hiss hex hsame => ?_⟩
    · unfold updateStatus
      rw [if_pos hne]
    · unfold updateStatus
      rw [if_neg (by omega), if_pos hmiss]
    · unfold updateStatus
      rw [if_neg (by omega), if_neg (by simp [hex]), if_pos hsame]
  · intro ops sender now credentialId newStatus reason hsender hmiss
    have hempty := csExec_noGhost ops credentialId hmiss
    unfold updateStatus
    rw [if_pos (by rw [hempty]; simpa [emptyCredentialStatus] using
      fun hzero => hsender hzero.symm)]

/-- Witness for C3 amended: the Unauthorized-on-absent-id clause on a fresh
registry, and the NoOp clause on a freshly issued credential. -/
theorem C3_error_kinds_witness :
    updateStatus (csExec []) 1 0 "ghost" Status.Revoked "r" =
      .error "Only issuer can update credential status" ∧
    updateStatus (csExec [CSOp.issue 1 0 "c" 0]) 1 1 "c" Status.Active "r" =
      .error "Status unchanged" :=
  ⟨C3_error_kinds_amended.2 [] 1 0 "ghost" Status.Revoked "r" (by decide)
      (by decide),
   ((C3_error_kinds_amended.1 (csExec [CSOp.issue 1 0 "c" 0]) 1 1 "c"
      Status.Active "r").2.2) (by decide) (by decide) (by decide)⟩

/-- Inversion of a successful `createDID` call. -/
theorem createDID_ok {r : DIDRegistryState} {sender now : Nat} {did : String}
    {ctx pks svcs : List String} {r' : DIDRegistryState}
    (h : createDID r sender now did ctx pks svcs = .ok r') :
    (r.didDocuments did).existsF = false ∧ did.length ≠ 0 ∧
    (∀ d, r'.didDocuments d =
      if d = did then
        { id := did, context := ctx, controller := [], publicKey := pks,
          service := svcs, created := now, updated := now, existsF := true }
      else r.didDocuments d) ∧
    (∀ d, r'.didControllers d =
      if d = did then r.didControllers did ++ [sender]
      else r.didControllers d) := by
  unfold createDID at h
  split at h
  · cases h
  · split at h
    · cases h
    · rename_i h1 h2
      injection h with h
      exact ⟨by simpa using h1, h2, fun d => by rw [← h],
        fun d => by rw [← h]⟩

/-- C4 counterexample: DID "did:a" is created by address 1, deactivated by
its controller, and then `createDID` for the same id by address 2 succeeds
(the claim says it must fail with AlreadyExists even after deactivation),
and the re-creator does not become the sole controller: the controller
array now holds both 1 and 2. -/
theorem C4_recreate_after_deactivate_counterexample :
    callOk (createDID (didExec [DIDOp.create 1 0 "did:a" [] [] [],
        DIDOp.deactivate 1 1 "did:a"]) 2 2 "did:a" [] [] []) = true ∧
    getControllers (didExec [DIDOp.create 1 0 "did:a" [] [] [],
        DIDOp.deactivate 1 1 "did:a", DIDOp.create 2 2 "did:a" [] [] []])
        "did:a" = [1, 2] := by
  decide

/-- C4 amended: `createDID` fails with AlreadyExists exactly for ids whose
stored exists flag is set; since `deactivateDID` clears that same flag (the
soft delete reuses the existence flag), a deactivated id can be re-created.
On success the caller is appended to the id's controller array, and is the
sole controller only when the id had no controllers before (a fresh id;
a re-created id keeps its leftover controllers). -/
theorem C4_createDID_unique_amended :
    ∀ (r : DIDRegistryState) (sender now : Nat) (did : String)
      (ctx pks svcs : List String),
      ((r.didDocuments did).existsF = true →
        createDID r sender now did ctx pks svcs = .error "DID already exists") ∧
      (∀ r', createDID r sender now did ctx pks svcs = .ok r' →
        (r'.didControllers did).contains sender = true ∧
        (r.didControllers did = [] → r'.didControllers did = [sender])) := by
  intro r sender now did ctx pks svcs
  constructor
  · intro hex
    unfold createDID
    rw [if_pos hex]
  · intro r' h
    obtain ⟨-, -, -, hctrl⟩ := createDID_ok h
    constructor
    · rw [hctrl did, if_pos rfl]
      simp
    · intro hempty
      rw [hctrl did, if_pos rfl, hempty]
      rfl

/-- Witness for C4 amended: re-creating a live DID fails AlreadyExists, and
a fresh creation makes the creator the sole controller. -/
theorem C4_createDID_unique_witness :
    createDID (didExec [DIDOp.create 1 0 "did:a" [] [] []]) 2 1 "did:a"
        [] [] [] = .error "DID already exists" ∧
    (didExec [DIDOp.create 1 0 "did:b" [] [] []]).didControllers "did:b" =
        [1] :=
  ⟨(C4_createDID_unique_amended (didExec [DIDOp.create 1 0 "did:a" [] [] []])
      2 1 "did:a" [] [] []).1 (by decide),
   ((C4_createDID_unique_amended didInit 1 0 "did:b" [] [] []).2
      (didExec [DIDOp.create 1 0 "did:b" [] [] []]) rfl).2 rfl⟩

/-- Swap-and-pop removal from an array of more than one element never
empties it: the result has exactly one element fewer (or is the unchanged
array when nothing matches). -/
theorem swapRemoveFirst_ne_nil {α : Type} [Inhabited α] (xs : List α)
    (p : α → Bool) (h : 1 < xs.length) : swapRemoveFirst xs p ≠ [] := by
  unfold swapRemoveFirst
  split
  · intro hc
    rw [hc] at h
    simp at h
  · rename_i i hi
    intro hc
    have hlen := congrArg List.length hc
    simp [List.length_dropLast, List.length_set] at hlen
    omega

/-- Inversion of a successful `updateDID` call: controllers are untouched
and only the mutable document fields of the target id change (the exists
flag is preserved, and was set). -/
theorem updateDID_ok {r : DIDRegistryState} {sender now : Nat} {did : String}
    {ctx pks svcs : List String} {r' : DIDRegistryState}
    (h : updateDID r sender now did ctx pks svcs = .ok r') :
    (r.didDocuments did).existsF = true ∧
    r'.didControllers = r.didControllers ∧
    ∀ d, r'.didDocuments d =
      if d = did then
        { r.didDocuments did with
          context := ctx, publicKey := pks, service := svcs, updated := now }
      else r.didDocuments d := by
  unfold updateDID at h
  split at h
  · cases h
  · split at h
    · cases h
    · rename_i h1 h2
      injection h with h
      exact ⟨by simpa using h2, by rw [← h], fun d => by rw [← h]⟩

/-- Inversion of a successful `addController` call: documents untouched,
the target id's controller array is extended by the new controller. -/
theorem addController_ok {r : DIDRegistryState} {sender : Nat} {did : String}
    {controller : Nat} {r' : DIDRegistryState}
    (h : addController r sender did controller = .ok r') :
    r'.didDocuments = r.didDocuments ∧
    ∀ d, r'.didControllers d =
      if d = did then r.didControllers did ++ [controller]
      else r.didControllers d := by
  unfold addController at h
  split at h
  · cases h
  · split at h
    · cases h
    · split at h
      · cases h
      · injection h with h
        exact ⟨by rw [← h], fun d => by rw [← h]⟩

/-- Inversion of a successful `removeController` call: documents untouched,
the target array had more than one controller and loses the removed one by
swap-and-pop. -/
theorem removeController_ok {r : DIDRegistryState} {sender : Nat}
    {did : String} {controller : Nat} {r' : DIDRegistryState}
    (h : removeController r sender did controller = .ok r') :
    1 < (r.didControllers did).length ∧
    r'.didDocuments = r.didDocuments ∧
    ∀ d, r'.didControllers d =
      if d = did then
        swapRemoveFirst (r.didControllers did) (fun a => a = controller)
      else r.didControllers d := by
  unfold removeController at h
  split at h
  · cases h
  · split at h
    · cases h
    · split at h
      · cases h
      · rename_i h1 h2 h3
        injection h with h
        exact ⟨by omega, by rw [← h], fun d => by rw [← h]⟩

/-- Inversion of a successful `deactivateDID` call: controllers untouched,
the target id's exists flag is cleared. -/
theorem deactivateDID_ok {r : DIDRegistryState} {sender now : Nat}
    {did : String} {r' : DIDRegistryState}
    (h : deactivateDID r sender now did = .ok r') :
    r'.didControllers = r.didControllers ∧
    ∀ d, r'.didDocuments d =
      if d = did then
        { r.didDocuments did with updated := now, existsF := false }
      else r.didDocuments d := by
  unfold deactivateDID at h
  split at h
  · cases h
  · split at h
    · cases h
    · injection h with h
      exact ⟨by rw [← h], fun d => by rw [← h]⟩

/-- The at-least-one-controller invariant for existing (non-deactivated)
DIDs. -/
def didInv (r : DIDRegistryState) : Prop :=
  ∀ did, (r.didDocuments did).existsF = true → r.didControllers did ≠ []

/-- Every DID-registry call preserves the controller invariant. -/
theorem didInv_apply (r : DIDRegistryState) (op : DIDOp) (h : didInv r) :
    didInv (didApply r op) := by
  unfold didApply
  cases op with
  | create sender now did ctx pks svcs =>
    simp only [didStep]
    cases hstep : createDID r sender now did ctx pks svcs with
    | error e => exact h
    | ok r' =>
      obtain ⟨-, -, hdoc, hctrl⟩ := createDID_ok hstep
      intro x hx
      rw [hctrl x]
      by_cases hxd : x = did
      · rw [if_pos hxd]
        simp
      · rw [if_neg hxd]
        rw [hdoc x, if_neg hxd] at hx
        exact h x hx
  | update sender now did ctx pks svcs =>
    simp only [didStep]
    cases hstep : updateDID r sender now did ctx pks svcs with
    | error e => exact h
    | ok r' =>
      obtain ⟨hex, hctrl, hdoc⟩ := updateDID_ok hstep
      intro x hx
      rw [hctrl]
      by_cases hxd : x = did
      · subst hxd
        exact h x hex
      · rw [hdoc x, if_neg hxd] at hx
        exact h x hx
  | addCtrl sender did c =>
    simp only [didStep]
    cases hstep : addController r sender did c with
    | error e => exact h
    | ok r' =>
      obtain ⟨hdoc, hctrl⟩ := addController_ok hstep
      intro x hx
      rw [hdoc] at hx
      rw [hctrl x]
      by_cases hxd : x = did
      · rw [if_pos hxd]
        simp
      · rw [if_neg hxd]
        exact h x hx
  | removeCtrl sender did c =>
    simp only [didStep]
    cases hstep : removeController r sender did c with
    | error e => exact h
    | ok r' =>
      obtain ⟨hlen, hdoc, hctrl⟩ := removeController_ok hstep
      intro x hx
      rw [hdoc] at hx
      rw [hctrl x]
      by_cases hxd : x = did
      · rw [if_pos hxd]
        exact swapRemoveFirst_ne_nil _ _ hlen
      · rw [if_neg hxd]
        exact h x hx
  | deactivate sender now did =>
    simp only [didStep]
    cases hstep : deactivateDID r sender now did with
    | error e => exact h
    | ok r' =>
      obtain ⟨hctrl, hdoc⟩ := deactivateDID_ok hstep
      intro x hx
      rw [hdoc x] at hx
      rw [hctrl]
      by_cases hxd : x = did
      · rw [if_pos hxd] at hx
        simp at hx
      · rw [if_neg hxd] at hx
        exact h x hx

/-- Every reachable DID-registry state satisfies the controller invariant. -/
theorem didExec_inv (ops : List DIDOp) : didInv (didExec ops) := by
  unfold didExec
  suffices hgen : ∀ r : DIDRegistryState, didInv r →
      didInv (ops.foldl didApply r) from
    hgen didInit (fun did hx => by simp [didInit, emptyDIDDocument] at hx)
  induction ops with
  | nil => intro r h; exact h
  | cons op rest ih =>
    intro r h
    exact ih (didApply r op) (didInv_apply r op h)

/-- C5: in every reachable DID-registry state, every existing (active) DID
has a nonempty controller array; `createDID` installs the caller as a
controller; and `removeController`, when the target is a controller and
the array would be left empty (it has at most one entry), fails with the
last-controller `StateError` and leaves the whole state unchanged. -/
theorem C5_controller_invariant :
    (∀ (ops : List DIDOp) (did : String),
      didExists (didExec ops) did = true →
        getControllers (didExec ops) did ≠ []) ∧
    (∀ (r : DIDRegistryState) (sender now : Nat) (did : String)
        (ctx pks svcs : List String) (r' : DIDRegistryState),
      createDID r sender now did ctx pks svcs = .ok r' →
        isController r' did sender = true) ∧
    (∀ (r : DIDRegistryState) (sender : Nat) (did : String) (controller : Nat),
      isController r did sender = true →
      isController r did controller = true →
      (r.didControllers did).length ≤ 1 →
        removeController r sender did controller =
          .error "Cannot remove last controller" ∧
        didApply r (DIDOp.removeCtrl sender did controller) = r) := by
  refine ⟨?_, ?_, ?_⟩
  · intro ops did hx
    exact didExec_inv ops did hx
  · intro r sender now did ctx pks svcs r' h
    obtain ⟨-, -, -, hctrl⟩ := createDID_ok h
    unfold isController
    rw [hctrl did, if_pos rfl]
    simp
  · intro r sender did controller h1 h2 hlen
    have herr : removeController r sender did controller =
        .error "Cannot remove last controller" := by
      unfold removeController
      rw [if_neg (by simp [h1]), if_neg (by simp [h2]), if_pos hlen]
    exact ⟨herr, by simp only [didApply, didStep]; rw [herr]⟩

/-- Witness for C5: a freshly created DID exists with a nonempty controller
array, and removing its single controller fails with the last-controller
error. -/
theorem C5_controller_invariant_witness :
    getControllers (didExec [DIDOp.create 1 0 "did:a" [] [] []]) "did:a" ≠
        [] ∧
    removeController (didExec [DIDOp.create 1 0 "did:a" [] [] []]) 1 "did:a"
        1 = .error "Cannot remove last controller" :=
  ⟨C5_controller_invariant.1 [DIDOp.create 1 0 "did:a" [] [] []] "did:a"
      (by decide),
   (C5_controller_invariant.2.2 (didExec [DIDOp.create 1 0 "did:a" [] [] []])
      1 "did:a" 1 (by decide) (by decide) (by decide)).1⟩

/-- Verdict of the proof step: it always validates (the error list on this
path is empty, so `valid = true` and the errors field is omitted), and an
absent proof or a proof without a jws only appends the corresponding
warning. -/
theorem proofStepAndVerdict_spec (c : DIDCore.VerifiableCredential)
    (issuerDID : String) (w0 : List String) :
    (IdentityAPI.proofStepAndVerdict c issuerDID w0).valid = true ∧
    (IdentityAPI.proofStepAndVerdict c issuerDID w0).errors = none ∧
    (c.proof = none →
      (IdentityAPI.proofStepAndVerdict c issuerDID w0).warnings =
        some (w0 ++ ["Credential has no proof"])) ∧
    (∀ p, c.proof = some p → p.jws = none →
      (IdentityAPI.proofStepAndVerdict c issuerDID w0).warnings =
        some (w0 ++ ["Could not verify credential proof"])) := by
  refine ⟨by simp [IdentityAPI.proofStepAndVerdict], by
    simp [IdentityAPI.proofStepAndVerdict], ?_, ?_⟩
  · intro hp
    simp only [IdentityAPI.proofStepAndVerdict, hp]
    rw [if_neg (by simp [List.isEmpty_iff])]
  · intro p hp hjws
    simp [IdentityAPI.proofStepAndVerdict, hp, DIDCore.verifyCredential,
      hjws, List.isEmpty_iff]

/-- C8: once the structural check passes, a past `expirationDate` makes
`verifyCredential` return exactly the invalid verdict with the single
error "Credential has expired"; the result is the same for every
environment with the same clock, so neither DID resolution nor the status
registry is ever consulted. -/
theorem C8_expired_short_circuit (env : IdentityAPI.Env)
    (c : DIDCore.VerifiableCredential)
    (hstruct : IdentityAPI.structuralMissing c = false)
    (hexp : IdentityAPI.expirationPast c env.now = true) :
    IdentityAPI.verifyCredential env c =
      { valid := false, errors := some ["Credential has expired"] } ∧
    ∀ env2 : IdentityAPI.Env, env2.now = env.now →
      IdentityAPI.verifyCredential env2 c =
        IdentityAPI.verifyCredential env c := by
  have hconst : ∀ e : IdentityAPI.Env, IdentityAPI.expirationPast c e.now = true →
      IdentityAPI.verifyCredential e c =
        { valid := false, errors := some ["Credential has expired"] } := by
    intro e he
    unfold IdentityAPI.verifyCredential
    rw [if_neg (by simp [hstruct]), if_pos he]
  refine ⟨hconst env hexp, fun env2 hnow => ?_⟩
  rw [hconst env hexp, hconst env2 (by rw [hnow]; exact hexp)]

/-- Environment in which every contract call throws (transport failure). -/
def envDown : IdentityAPI.Env :=
  { now := 10,
    didExistsCall := fun _ => .error "network down",
    resolveDIDCall := fun _ => .error "network down",
    checkStatusCall := fun _ => .error "network down" }

/-- Structurally complete credential with no expiration, no proof and no
status reference, issued by "did:test:1". -/
def cPlain : DIDCore.VerifiableCredential :=
  { context := some ["https://www.w3.org/2018/credentials/v1"],
    id := "cred:1", type := some ["VerifiableCredential"],
    issuer := some (.inl "did:test:1"), issuanceDate := "2024-01-01",
    expirationDate := none, credentialSubject := [], proof := none,
    credentialStatus := none }

/-- Like `cPlain` but expired at time 1 (before `envDown.now = 10`). -/
def cExpired : DIDCore.VerifiableCredential :=
  { cPlain with id := "cred:2", expirationDate := some 1 }

/-- Witness for C8: with every registry call failing, the expired credential
still gets the pure expiration verdict. -/
theorem C8_expired_short_circuit_witness :
    IdentityAPI.verifyCredential envDown cExpired =
      { valid := false, errors := some ["Credential has expired"] } :=
  (C8_expired_short_circuit envDown cExpired (by decide) (by decide)).1

/-- C9: whenever the structural, expiration, issuer-resolution and status
steps pass without an error (status passes when there is no status
reference, when the status call throws — warning only — or when it returns
isValid = true), the verdict is valid with the errors field omitted,
regardless of the proof: an absent proof or a jws-less proof only
contributes a warning. -/
theorem C9_proof_step_warning_only (env : IdentityAPI.Env)
    (c : DIDCore.VerifiableCredential)
    (hstruct : IdentityAPI.structuralMissing c = false)
    (hexp : IdentityAPI.expirationPast c env.now = false)
    (hres : (IdentityAPI.resolveDID env (IdentityAPI.issuerId c)).existsFlag
      = true)
    (hstatus : c.credentialStatus = none ∨
      ∃ cs, c.credentialStatus = some cs ∧
        ((∃ e, env.checkStatusCall cs.id = .error e) ∨
         ∃ s ex, env.checkStatusCall cs.id = .ok (s, true, ex))) :
    (IdentityAPI.verifyCredential env c).valid = true ∧
    (IdentityAPI.verifyCredential env c).errors = none ∧
    (c.proof = none →
      ∃ l, (IdentityAPI.verifyCredential env c).warnings = some l ∧
        "Credential has no proof" ∈ l) ∧
    (∀ p, c.proof = some p → p.jws = none →
      ∃ l, (IdentityAPI.verifyCredential env c).warnings = some l ∧
        "Could not verify credential proof" ∈ l) := by
  obtain ⟨w0, hred⟩ : ∃ w0, IdentityAPI.verifyCredential env c =
      IdentityAPI.proofStepAndVerdict c (IdentityAPI.issuerId c) w0 := by
    unfold IdentityAPI.verifyCredential
    rw [if_neg (by simp [hstruct]), if_neg (by simp [hexp])]
    simp only [hres]
    rw [if_neg (by simp)]
    rcases hstatus with hnone | ⟨cs, hcs, hcase⟩
    · rw [hnone]
      exact ⟨[], rfl⟩
    · rw [hcs]
      rcases hcase with ⟨e, he⟩ | ⟨s, ex, hok⟩
      · simp only [he]
        exact ⟨["Could not verify credential status on blockchain"], rfl⟩
      · simp only [hok]
        rw [if_neg (by decide)]
        exact ⟨[], rfl⟩
  obtain ⟨hvalid, herr, hnop, hbad⟩ :=
    proofStepAndVerdict_spec c (IdentityAPI.issuerId c) w0
  rw [hred]
  refine ⟨hvalid, herr, fun hp => ?_, fun p hp hjws => ?_⟩
  · exact ⟨w0 ++ ["Credential has no proof"], hnop hp, by simp⟩
  · exact ⟨w0 ++ ["Could not verify credential proof"], hbad p hp hjws,
      by simp⟩

/-- Environment in which the DID registry answers (every DID exists and
resolves to an empty document) but the status registry call throws. -/
def envDIDok : IdentityAPI.Env :=
  { now := 10,
    didExistsCall := fun _ => .ok true,
    resolveDIDCall := fun _ => .ok
      { id := "did:test:1", context := [], controller := [], publicKey := [],
        service := [], created := 0, updated := 0 },
    checkStatusCall := fun _ => .error "network down" }

/-- Like `cPlain` but carrying a status reference (whose check will throw
in `envDIDok`) and no proof. -/
def cStatusNoProof : DIDCore.VerifiableCredential :=
  { cPlain with
    id := "cred:3",
    credentialStatus := some { id := "cred:s", type := "StatusList" } }

/-- Witness for C9: with a throwing status call and no proof at all the
credential is still judged valid with no errors field. -/
theorem C9_proof_step_warning_only_witness :
    (IdentityAPI.verifyCredential envDIDok cStatusNoProof).valid = true ∧
    (IdentityAPI.verifyCredential envDIDok cStatusNoProof).errors = none :=
  ⟨(C9_proof_step_warning_only envDIDok cStatusNoProof (by decide) (by decide)
      (by decide)
      (Or.inr ⟨{ id := "cred:s", type := "StatusList" }, by rfl,
        Or.inl ⟨"network down", rfl⟩⟩)).1,
   (C9_proof_step_warning_only envDIDok cStatusNoProof (by decide) (by decide)
      (by decide)
      (Or.inr ⟨{ id := "cred:s", type := "StatusList" }, by rfl,
        Or.inl ⟨"network down", rfl⟩⟩)).2.1⟩

/-- C10: `IdentityAPI.resolveDID` is total and fail-closed: its result
reports existence exactly when `didExists` answered `ok true` and
`resolveDID` answered `ok` (every thrown call is swallowed into
`exists = false`, with a null document), and whenever the issuer lookup of
a structurally sound, unexpired credential reports non-existence for any
reason, `verifyCredential` returns the hard error "Issuer DID not found"
(an error, not a warning). -/
theorem C10_resolveDID_fail_closed :
    (∀ (env : IdentityAPI.Env) (did : String),
      (IdentityAPI.resolveDID env did).existsFlag = true ↔
        env.didExistsCall did = .ok true ∧
        ∃ d, env.resolveDIDCall did = .ok d) ∧
    (∀ (env : IdentityAPI.Env) (did : String),
      (IdentityAPI.resolveDID env did).existsFlag = false →
        (IdentityAPI.resolveDID env did).document = none) ∧
    (∀ (env : IdentityAPI.Env) (c : DIDCore.VerifiableCredential),
      IdentityAPI.structuralMissing c = false →
      IdentityAPI.expirationPast c env.now = false →
      (IdentityAPI.resolveDID env (IdentityAPI.issuerId c)).existsFlag =
        false →
      IdentityAPI.verifyCredential env c =
        { valid := false, errors := some ["Issuer DID not found"] }) := by
  refine ⟨?_, ?_, ?_⟩
  · intro env did
    unfold IdentityAPI.resolveDID
    cases hde : env.didExistsCall did with
    | error e => simp
    | ok b =>
      cases b with
      | false => simp
      | true =>
        cases hrd : env.resolveDIDCall did with
        | error e => simp [hrd]
        | ok doc => simp [hrd]
  · intro env did
    unfold IdentityAPI.resolveDID
    cases hde : env.didExistsCall did with
    | error e => intro _; rfl
    | ok b =>
      cases b with
      | false => intro _; rfl
      | true =>
        cases hrd : env.resolveDIDCall did with
        | error e => intro _; rfl
        | ok doc => intro h; cases h
  · intro env c hstruct hexp hres
    unfold IdentityAPI.verifyCredential
    rw [if_neg (by simp [hstruct]), if_neg (by simp [hexp])]
    simp only [hres]
    rw [if_pos trivial]

/-- Witness for C10: against the all-throwing environment the lookup
swallows the transport error into non-existence, and verification of the
plain credential produces the hard issuer error. -/
theorem C10_resolveDID_fail_closed_witness :
    (IdentityAPI.resolveDID envDown "did:x").existsFlag = false ∧
    IdentityAPI.verifyCredential envDown cPlain =
      { valid := false, errors := some ["Issuer DID not found"] } :=
  ⟨by
    cases hval : (IdentityAPI.resolveDID envDown "did:x").existsFlag with
    | false => rfl
    | true =>
      exact absurd ((C10_resolveDID_fail_closed.1 envDown "did:x").mp
        hval).1 (by decide),
   C10_resolveDID_fail_closed.2.2 envDown cPlain (by decide) (by decide)
     (by decide)⟩
